import Mathlib

/-!
# Magic Slate content analytics: formal model

Shallow embedding of the Magic Slate analytics modules
(`magicslate/windowing_simulator.py`, `magicslate/metrics.py`,
`magicslate/assumptions.py`, `magicslate/greenlight_forecast.py`),
with theorems checking the natural-language specification against the code.

Machine floats are modelled by exact arithmetic: rational numbers where the
computation is purely rational, real numbers where `np.exp`, `np.log`, `sqrt`
or fractional powers occur.
-/

namespace MagicSlate

/-- `data_models.WindowingScenario`: configuration of one windowing strategy.
Day counts are Python `int`s (possibly negative); the licence fee is a float. -/
structure WindowingScenario where
  scenario_name : String
  title_id : String
  theatrical_window_days : ℤ
  pvod_window_days : ℤ
  disney_plus_offset_days : ℤ
  hulu_offset_days : ℤ
  third_party_license_start_days : ℤ
  third_party_license_fee : ℝ

/-- `max(scenario.disney_plus_offset_days, scenario.hulu_offset_days)` as computed
in `simulate_windowing_scenarios` and `compute_cashflow_timeline`. -/
def streaming_offset (s : WindowingScenario) : ℤ :=
  max s.disney_plus_offset_days s.hulu_offset_days

/-- Streaming-window decay multiplier, `windowing_simulator.py` lines 98-106
(identically lines 400-405). -/
noncomputable def streaming_multiplier (offset : ℤ) : ℝ :=
  if offset < 45 then 1.0
  else if offset < 90 then 0.95
  else 0.85 + (1.0 - min ((offset : ℝ) / 365) 1.0) * 0.1

/-- C5 counterexample: at a streaming offset of exactly 90 days the code takes the
long-window branch, producing `0.85 + (1 - 90/365) * 0.1 = 0.95 - 9/365`, not the
`0.95` the claim asserts for offsets "between 45 and 90 days inclusive". -/
theorem c5_counterexample_offset90 :
    streaming_multiplier 90 = 0.85 + (1 - 90 / 365) * 0.1 ∧
    streaming_multiplier 90 ≠ 0.95 := by
  have h90 : streaming_multiplier 90 = 0.85 + (1 - 90 / 365) * 0.1 := by
    unfold streaming_multiplier
    rw [if_neg (by decide), if_neg (by decide)]
    rw [min_eq_left (by norm_num : ((90 : ℤ) : ℝ) / 365 ≤ 1.0)]
    norm_num
  refine ⟨h90, ?_⟩
  rw [h90]
  norm_num

/-- C5 (amended): the streaming-window decay multiplier is `1.0` for offsets
below 45 days, `0.95` for offsets in `[45, 90)` (exclusive at 90), and
`0.85 + (1 − min(offset/365, 1))·0.1` for offsets of 90 days or more. -/
theorem c5_streaming_multiplier_cases (offset : ℤ) :
    (offset < 45 → streaming_multiplier offset = 1.0) ∧
    (45 ≤ offset → offset < 90 → streaming_multiplier offset = 0.95) ∧
    (90 ≤ offset → streaming_multiplier offset
        = 0.85 + (1.0 - min ((offset : ℝ) / 365) 1.0) * 0.1) := by
  refine ⟨fun h => ?_, fun h1 h2 => ?_, fun h => ?_⟩
  · unfold streaming_multiplier
    rw [if_pos h]
  · unfold streaming_multiplier
    rw [if_neg (by omega), if_pos h2]
  · unfold streaming_multiplier
    rw [if_neg (by omega), if_neg (by omega)]

/-- C5 witness: concrete instantiation of the amended multiplier cases at an
offset of 100 days. -/
theorem c5_streaming_multiplier_cases_witness :
    (90 : ℤ) ≤ 100 ∧ streaming_multiplier 100
        = 0.85 + (1.0 - min ((100 : ℝ)) 1.0) * 0.1 ∨
    streaming_multiplier 100 = 0.85 + (1.0 - min (((100 : ℤ) : ℝ) / 365) 1.0) * 0.1 :=
  Or.inr ((c5_streaming_multiplier_cases 100).2.2 (by decide))

/-! ## Classification thresholds (`assumptions.py` lines 77-96) -/

def TENTPOLE_THRESHOLD_min_budget : ℝ := 80000000
def TENTPOLE_THRESHOLD_min_value : ℝ := 200000000

def WORKHORSE_THRESHOLD_min_roi : ℝ := 0.5
def WORKHORSE_THRESHOLD_max_roi : ℝ := 2.0
def WORKHORSE_THRESHOLD_min_budget : ℝ := 10000000

def NICHE_GEM_THRESHOLD_max_budget : ℝ := 20000000
def NICHE_GEM_THRESHOLD_min_roi : ℝ := 1.5
def NICHE_GEM_THRESHOLD_max_cost_per_hour : ℝ := 5.0

def UNDERPERFORMER_THRESHOLD_max_roi : ℝ := 0.0

/-- `metrics.classify_title_performance` (lines 238-288): first matching rule
wins; `budget_tier` is accepted but never read, exactly as in the source. -/
noncomputable def classify_title_performance (total_value total_cost roi : ℝ)
    (budget_tier : String) (cost_per_hour : ℝ) : String :=
  if TENTPOLE_THRESHOLD_min_budget ≤ total_cost ∧
      TENTPOLE_THRESHOLD_min_value ≤ total_value then "Tentpole"
  else if roi ≤ UNDERPERFORMER_THRESHOLD_max_roi then "Underperformer"
  else if total_cost ≤ NICHE_GEM_THRESHOLD_max_budget ∧
      NICHE_GEM_THRESHOLD_min_roi ≤ roi ∧
      cost_per_hour ≤ NICHE_GEM_THRESHOLD_max_cost_per_hour then "Niche Gem"
  else if WORKHORSE_THRESHOLD_min_roi ≤ roi ∧ roi ≤ WORKHORSE_THRESHOLD_max_roi ∧
      WORKHORSE_THRESHOLD_min_budget ≤ total_cost then "Workhorse"
  else if 0.3 < roi then "Acceptable"
  else "Marginal"

/-- C4: classification applies its rules in the fixed order Tentpole,
Underperformer, Niche Gem, Workhorse, Acceptable, Marginal with the stated
numeric thresholds, first match winning; and the example cost = 90M,
value = 250M classifies as "Tentpole" whatever the other inputs. -/
theorem c4_classification_order (total_value total_cost roi cost_per_hour : ℝ)
    (budget_tier : String) :
    classify_title_performance total_value total_cost roi budget_tier cost_per_hour =
      (if 80000000 ≤ total_cost ∧ 200000000 ≤ total_value then "Tentpole"
       else if roi ≤ 0.0 then "Underperformer"
       else if total_cost ≤ 20000000 ∧ 1.5 ≤ roi ∧ cost_per_hour ≤ 5.0 then "Niche Gem"
       else if 0.5 ≤ roi ∧ roi ≤ 2.0 ∧ 10000000 ≤ total_cost then "Workhorse"
       else if 0.3 < roi then "Acceptable"
       else "Marginal") ∧
    classify_title_performance 250000000 90000000 roi budget_tier cost_per_hour
      = "Tentpole" := by
  constructor
  · rfl
  · unfold classify_title_performance
    rw [if_pos ⟨by norm_num [TENTPOLE_THRESHOLD_min_budget],
                by norm_num [TENTPOLE_THRESHOLD_min_value]⟩]

/-! ## NPV (`metrics.compute_npv`, lines 146-173) -/

/-- A pandas `Series` of cashflows: association list of `(period, amount)` pairs
in insertion order. Periods are Python ints (possibly negative). -/
abbrev CFSeries := List (ℤ × ℝ)

/-- `metrics.compute_npv`: per-period compounding of the annual rate, then a sum
of discounted cashflows over the series items. -/
noncomputable def compute_npv (cashflows : CFSeries) (discount_rate : ℝ)
    (periods_per_year : ℝ) : ℝ :=
  if cashflows.isEmpty then 0
  else
    let period_discount_rate := (1 + discount_rate) ^ ((1 : ℝ) / periods_per_year) - 1
    (cashflows.map (fun pc => pc.2 * (1 / (1 + period_discount_rate) ^ pc.1))).sum

/-- The compounded per-period rate grows strictly with the annual rate. -/
lemma period_rate_strict_mono {r1 r2 ppy : ℝ} (h0 : 0 ≤ r1) (h12 : r1 < r2)
    (hp : 0 < ppy) :
    (1 + r1) ^ ((1 : ℝ) / ppy) < (1 + r2) ^ ((1 : ℝ) / ppy) :=
  Real.rpow_lt_rpow (by linarith) (by linarith) (by positivity)

/-- The compounded per-period factor is at least one for a non-negative rate. -/
lemma one_le_period_factor {r ppy : ℝ} (h0 : 0 ≤ r) (hp : 0 < ppy) :
    1 ≤ (1 + r) ^ ((1 : ℝ) / ppy) :=
  Real.one_le_rpow (by linarith) (by positivity)

/-- C7 counterexample: the series with a single cashflow of 5 at period 0 is
non-negative and not all-zero, yet its NPV is identical at annual rates 0.05
and 0.10 — the discount factor at period 0 is 1 regardless of the rate. -/
theorem c7_counterexample_period0 :
    (0 : ℝ) ≤ 5 ∧ (5 : ℝ) ≠ 0 ∧
    compute_npv [((0 : ℤ), (5 : ℝ))] 0.10 52 = compute_npv [((0 : ℤ), (5 : ℝ))] 0.05 52 := by
  refine ⟨by norm_num, by norm_num, ?_⟩
  simp [compute_npv]

/-- C7 (amended): over cashflows at non-negative periods with non-negative
amounts, raising the annual discount rate strictly lowers the NPV computed by
`compute_npv` as soon as some strictly positive cashflow sits at a period ≥ 1;
a series whose positive cash sits only at period 0 is unchanged. -/
theorem c7_npv_strict_antitone (l : CFSeries) (r1 r2 ppy : ℝ)
    (hnn : ∀ pc ∈ l, 0 ≤ pc.2) (hper : ∀ pc ∈ l, 0 ≤ pc.1)
    (hpos : ∃ pc ∈ l, 1 ≤ pc.1 ∧ 0 < pc.2)
    (h0 : 0 ≤ r1) (h12 : r1 < r2) (hp : 0 < ppy) :
    compute_npv l r2 ppy < compute_npv l r1 ppy := by
  obtain ⟨pc0, hpc0mem, hpc0⟩ := hpos
  have hne : l.isEmpty = false := by
    cases l with
    | nil => simp at hpc0mem
    | cons a t => rfl
  unfold compute_npv
  rw [hne]
  simp only [Bool.false_eq_true, if_false]
  set b1 : ℝ := 1 + ((1 + r1) ^ ((1 : ℝ) / ppy) - 1) with hb1
  set b2 : ℝ := 1 + ((1 + r2) ^ ((1 : ℝ) / ppy) - 1) with hb2
  have h1b1 : 1 ≤ b1 := by
    rw [hb1]
    have := one_le_period_factor h0 hp
    linarith
  have hb12 : b1 < b2 := by
    rw [hb1, hb2]
    have := period_rate_strict_mono h0 h12 hp
    linarith
  have hb1pos : 0 < b1 := lt_of_lt_of_le one_pos h1b1
  have hb2pos : 0 < b2 := lt_trans hb1pos hb12
  have key_le : ∀ pc ∈ l, pc.2 * (1 / b2 ^ pc.1) ≤ pc.2 * (1 / b1 ^ pc.1) := by
    intro pc hmem
    have hc := hnn pc hmem
    have hpge := hper pc hmem
    obtain ⟨n, hn⟩ : ∃ n : ℕ, pc.1 = (n : ℤ) := ⟨pc.1.toNat, (Int.toNat_of_nonneg hpge).symm⟩
    rw [hn, zpow_natCast, zpow_natCast]
    have hpow : b1 ^ n ≤ b2 ^ n := pow_le_pow_left (le_of_lt hb1pos) (le_of_lt hb12) n
    have hpow1 : 0 < b1 ^ n := pow_pos hb1pos n
    exact mul_le_mul_of_nonneg_left (by
      apply one_div_le_one_div_of_le hpow1 hpow) hc
  have key_lt : pc0.2 * (1 / b2 ^ pc0.1) < pc0.2 * (1 / b1 ^ pc0.1) := by
    obtain ⟨hp1, hcpos⟩ := hpc0
    have hpge : (0 : ℤ) ≤ pc0.1 := le_trans (by norm_num) hp1
    obtain ⟨n, hn⟩ : ∃ n : ℕ, pc0.1 = (n : ℤ) := ⟨pc0.1.toNat, (Int.toNat_of_nonneg hpge).symm⟩
    have hn1 : 1 ≤ n := by
      rw [hn] at hp1
      exact_mod_cast hp1
    rw [hn, zpow_natCast, zpow_natCast]
    have hpow : b1 ^ n < b2 ^ n := by
      apply pow_lt_pow_left hb12 (le_of_lt hb1pos)
      omega
    have hpow1 : 0 < b1 ^ n := pow_pos hb1pos n
    exact mul_lt_mul_of_pos_left (by
      apply one_div_lt_one_div_of_lt hpow1 hpow) hcpos
  exact List.sum_lt_sum _ _ key_le ⟨pc0, hpc0mem, key_lt⟩

/-- C7 witness: the single-period-1 cashflow series at rates 0 < 0.10,
52 periods per year. -/
theorem c7_npv_strict_antitone_witness :
    compute_npv [((1 : ℤ), (5 : ℝ))] 0.10 52 < compute_npv [((1 : ℤ), (5 : ℝ))] 0 52 := by
  refine c7_npv_strict_antitone _ 0 0.10 52 ?_ ?_ ?_ ?_ ?_ ?_
  · intro pc hmem
    simp only [List.mem_singleton] at hmem
    subst hmem
    norm_num
  · intro pc hmem
    simp only [List.mem_singleton] at hmem
    subst hmem
    norm_num
  · exact ⟨((1 : ℤ), (5 : ℝ)), by simp, by norm_num, by norm_num⟩
  · norm_num
  · norm_num
  · norm_num

/-! ## Engagement curve (`metrics.compute_engagement_curve`, lines 13-85) -/

/-- One row of a per-title engagement frame: `(week_number, proxy_hours_viewed)`.
Hours are floats in the source; here they are exact rationals. -/
structure EngPoint where
  week : ℤ
  hours : ℚ
deriving DecidableEq

/-- `df.sort_values("week_number")`: order the rows by week. -/
def sortByWeek (l : List EngPoint) : List EngPoint :=
  l.insertionSort (fun a b => a.week ≤ b.week)

/-- `idxmax` on hours followed by `loc`: the first row attaining the maximal
hours (ties broken by first occurrence, as `idxmax` does). -/
def peakPoint (l : List EngPoint) (dflt : EngPoint) : EngPoint :=
  match l with
  | [] => dflt
  | p :: ps => ps.foldl (fun best q => if best.hours < q.hours then q else best) p

/-- The peak row of the week-sorted frame. -/
def peakOf (l : List EngPoint) : EngPoint :=
  peakPoint (sortByWeek l) ⟨0, 0⟩

/-- `df[df["week_number"] > peak_week]`: rows strictly after the peak week. -/
def postPeak (l : List EngPoint) : List EngPoint :=
  (sortByWeek l).filter (fun q => (peakOf l).week < q.week)

/-- Regressor values `weeks_since_peak` of the post-peak rows. -/
def decayX (l : List EngPoint) : List ℚ :=
  (postPeak l).map (fun q => ((q.week - (peakOf l).week : ℤ) : ℚ))

/-- Regressand values `log(hours + 1)` of the post-peak rows. -/
noncomputable def decayY (l : List EngPoint) : List ℝ :=
  (postPeak l).map (fun q => Real.log ((q.hours : ℝ) + 1))

/-- Arithmetic mean of a rational list (`np.mean`). -/
def listMeanQ (xs : List ℚ) : ℚ := xs.sum / xs.length

/-- Arithmetic mean of a real list. -/
noncomputable def listMeanR (ys : List ℝ) : ℝ := ys.sum / ys.length

/-- `np.var` with its default `ddof = 0`: population variance. -/
def popVar (xs : List ℚ) : ℚ :=
  ((xs.map (fun x => (x - listMeanQ xs) ^ 2)).sum) / xs.length

/-- `np.cov(X, y)[0, 1]` with its default `ddof = 1`: sample covariance,
dividing the centred cross products by `n - 1`. -/
noncomputable def sampleCov (xs : List ℚ) (ys : List ℝ) : ℝ :=
  ((List.zipWith (fun (x : ℚ) (y : ℝ) => ((x : ℝ) - (listMeanQ xs : ℝ)) * (y - listMeanR ys))
      xs ys).sum)
    / ((xs.length : ℝ) - 1)

/-- Decay rate exactly as `compute_engagement_curve` computes it: the negated
`np.cov(X, y)[0, 1] / np.var(X)` slope over the (at least 3) post-peak rows,
clamped at zero. The source's `np.std(X) > 0` guard is represented by the
equivalent `0 < popVar X`. -/
noncomputable def decay_rate_code (l : List EngPoint) : ℝ :=
  if l.isEmpty then 0
  else if 3 ≤ (postPeak l).length then
    if 1 < (decayX l).length ∧ 0 < popVar (decayX l) then
      max 0 (-(if 0 < popVar (decayX l) then
        sampleCov (decayX l) (decayY l) / (popVar (decayX l) : ℝ) else 0))
    else 0
  else 0

/-- Modelled from the spec: the textbook least-squares slope of `y` on `x`,
`Σ(x−x̄)(y−ȳ) / Σ(x−x̄)²`. -/
noncomputable def leastSquaresSlope (xs : List ℚ) (ys : List ℝ) : ℝ :=
  ((List.zipWith (fun (x : ℚ) (y : ℝ) => ((x : ℝ) - (listMeanQ xs : ℝ)) * (y - listMeanR ys))
      xs ys).sum)
    / ((xs.map (fun (x : ℚ) => ((x : ℝ) - (listMeanQ xs : ℝ)) ^ 2)).sum)

/-- Modelled from the spec: decay rate as the negated least-squares slope of
`log(hours+1)` on weeks-since-peak over the (at least 3) post-peak rows,
clamped at zero from below. -/
noncomputable def decay_rate_spec (l : List EngPoint) : ℝ :=
  if l.isEmpty then 0
  else if 3 ≤ (postPeak l).length then
    max 0 (-(leastSquaresSlope (decayX l) (decayY l)))
  else 0

/-- `long_tail_share`: hours after week 4 over total hours (0 when the total is
not positive). -/
def long_tail_share_of (l : List EngPoint) : ℚ :=
  if l.isEmpty then 0
  else
    let total := ((sortByWeek l).map (·.hours)).sum
    let long_tail := (((sortByWeek l).filter (fun q => 4 < q.week)).map (·.hours)).sum
    if 0 < total then long_tail / total else 0

/-- The dictionary returned by `metrics.compute_engagement_curve`. -/
structure EngagementCurve where
  peak_hours : ℚ
  peak_week : ℤ
  total_hours : ℚ
  decay_rate : ℝ
  long_tail_share : ℚ
  weeks_above_threshold : ℕ

/-- `metrics.compute_engagement_curve`: basic peak metrics, the decay-rate fit,
the long-tail share and the count of weeks above 10% of peak hours. -/
noncomputable def compute_engagement_curve (l : List EngPoint) : EngagementCurve :=
  if l.isEmpty then ⟨0, 0, 0, 0, 0, 0⟩
  else
    { peak_hours := (peakOf l).hours
      peak_week := (peakOf l).week
      total_hours := ((sortByWeek l).map (·.hours)).sum
      decay_rate := decay_rate_code l
      long_tail_share := long_tail_share_of l
      weeks_above_threshold :=
        ((sortByWeek l).filter (fun q => (peakOf l).hours * 0.1 < q.hours)).length }

/-- Sum of a filtered non-negative hours column is at most the full sum. -/
lemma filter_hours_sum_le (p : EngPoint → Bool) (l : List EngPoint)
    (h : ∀ q ∈ l, (0 : ℚ) ≤ q.hours) :
    ((l.filter p).map (·.hours)).sum ≤ (l.map (·.hours)).sum := by
  induction l with
  | nil => simp
  | cons a t ih =>
    have ha := h a (List.mem_cons_self a t)
    have ht : ∀ q ∈ t, (0 : ℚ) ≤ q.hours := fun q hq => h q (List.mem_cons_of_mem a hq)
    by_cases hpa : p a
    · simp only [List.filter_cons, hpa, if_pos, List.map_cons, List.sum_cons]
      exact add_le_add_left (ih ht) _
    · simp only [List.filter_cons, hpa, Bool.false_eq_true, if_false,
        List.map_cons, List.sum_cons]
      have := ih ht
      linarith

/-- C9: for every engagement series with non-negative hours, the computed decay
rate is non-negative and the long-tail share lies in `[0, 1]`. -/
theorem c9_curve_invariants (l : List EngPoint) (h : ∀ q ∈ l, (0 : ℚ) ≤ q.hours) :
    0 ≤ (compute_engagement_curve l).decay_rate ∧
    0 ≤ (compute_engagement_curve l).long_tail_share ∧
    (compute_engagement_curve l).long_tail_share ≤ 1 := by
  have hsorted : ∀ q ∈ sortByWeek l, (0 : ℚ) ≤ q.hours := by
    intro q hq
    exact h q ((List.mem_insertionSort _).1 hq)
  have hdecay : 0 ≤ decay_rate_code l := by
    unfold decay_rate_code
    split_ifs <;> simp [le_max_left]
  have hlts : 0 ≤ long_tail_share_of l ∧ long_tail_share_of l ≤ 1 := by
    simp only [long_tail_share_of]
    split_ifs with h1 h2
    · exact ⟨le_refl 0, by norm_num⟩
    · constructor
      · apply div_nonneg _ (le_of_lt h2)
        apply List.sum_nonneg
        intro x hx
        obtain ⟨q, hq, rfl⟩ := List.mem_map.1 hx
        exact hsorted q (List.mem_of_mem_filter hq)
      · rw [div_le_one h2]
        exact filter_hours_sum_le _ _ hsorted
    · exact ⟨le_refl 0, by norm_num⟩
  constructor
  · unfold compute_engagement_curve
    split_ifs with h1
    · norm_num
    · exact hdecay
  constructor
  · unfold compute_engagement_curve
    split_ifs with h1
    · norm_num
    · exact hlts.1
  · unfold compute_engagement_curve
    split_ifs with h1
    · norm_num
    · exact hlts.2

/-- The example engagement series: weekly hours 2M, 5M (peak, week 2), 4M, 2M,
1M, 0.5M. -/
def exampleEngagement : List EngPoint :=
  [⟨1, 2000000⟩, ⟨2, 5000000⟩, ⟨3, 4000000⟩, ⟨4, 2000000⟩, ⟨5, 1000000⟩, ⟨6, 500000⟩]

/-- C9 witness: the invariants instantiated on the example series. -/
theorem c9_curve_invariants_witness :
    0 ≤ (compute_engagement_curve exampleEngagement).decay_rate ∧
    0 ≤ (compute_engagement_curve exampleEngagement).long_tail_share ∧
    (compute_engagement_curve exampleEngagement).long_tail_share ≤ 1 :=
  c9_curve_invariants exampleEngagement (by decide)

lemma ratCast_list_sum (l : List ℚ) :
    ((l.sum : ℚ) : ℝ) = (l.map (fun (q : ℚ) => (q : ℝ))).sum := by
  induction l with
  | nil => simp
  | cons a t ih => simp [ih]

/-- The slope the source computes — sample covariance (ddof 1) over population
variance (ddof 0) — is `n/(n−1)` times the least-squares slope. -/
lemma cov_div_var_eq_ls (xs : List ℚ) (ys : List ℝ) (h2 : 2 ≤ xs.length)
    (hV : 0 < popVar xs) :
    sampleCov xs ys / (popVar xs : ℝ)
      = ((xs.length : ℝ) / ((xs.length : ℝ) - 1)) * leastSquaresSlope xs ys := by
  have hn0 : (0 : ℚ) < (xs.length : ℚ) := by
    have : 0 < xs.length := by omega
    exact_mod_cast this
  have hVq : (0 : ℚ) < (xs.map (fun x => (x - listMeanQ xs) ^ 2)).sum := by
    unfold popVar at hV
    by_contra hle
    push_neg at hle
    have : (xs.map (fun x => (x - listMeanQ xs) ^ 2)).sum / (xs.length : ℚ) ≤ 0 :=
      div_nonpos_of_nonpos_of_nonneg hle (le_of_lt hn0)
    linarith
  have hden : (xs.map (fun (x : ℚ) => ((x : ℝ) - (listMeanQ xs : ℝ)) ^ 2)).sum
      = (((xs.map (fun x => (x - listMeanQ xs) ^ 2)).sum : ℚ) : ℝ) := by
    rw [ratCast_list_sum, List.map_map]
    apply congrArg List.sum
    apply List.map_congr_left
    intro x hx
    simp only [Function.comp_apply]
    push_cast
    ring
  have hcast : ((popVar xs : ℚ) : ℝ)
      = (((xs.map (fun x => (x - listMeanQ xs) ^ 2)).sum : ℚ) : ℝ) / (xs.length : ℝ) := by
    unfold popVar
    push_cast
    ring
  have hVr : (0 : ℝ) < (((xs.map (fun x => (x - listMeanQ xs) ^ 2)).sum : ℚ) : ℝ) := by
    exact_mod_cast hVq
  have hn1 : ((xs.length : ℝ) - 1) ≠ 0 := by
    have : (2 : ℝ) ≤ (xs.length : ℝ) := by exact_mod_cast h2
    linarith
  have hnr : ((xs.length : ℝ)) ≠ 0 := by
    have : (2 : ℝ) ≤ (xs.length : ℝ) := by exact_mod_cast h2
    linarith
  unfold sampleCov leastSquaresSlope
  rw [hden, hcast]
  field_simp
  ring

lemma decayX_example : decayX exampleEngagement = [1, 2, 3, 4] := by decide

lemma listMeanQ_example : listMeanQ [1, 2, 3, 4] = 5 / 2 := by
  norm_num [listMeanQ]

lemma popVar_example : popVar [1, 2, 3, 4] = 5 / 4 := by
  norm_num [popVar, listMeanQ_example]

lemma popVar_example_pos : 0 < popVar (decayX exampleEngagement) := by
  rw [decayX_example, popVar_example]
  norm_num

/-- Unfolding `decay_rate_code` on the example series: all guards hold, so the
decay rate is the clamped negated cov/var slope. -/
lemma decay_code_example_eq :
    decay_rate_code exampleEngagement
      = max 0 (-(sampleCov (decayX exampleEngagement) (decayY exampleEngagement)
          / (popVar (decayX exampleEngagement) : ℝ))) := by
  unfold decay_rate_code
  rw [if_neg (show ¬exampleEngagement.isEmpty = true by decide)]
  rw [if_pos (show 3 ≤ (postPeak exampleEngagement).length by decide)]
  rw [if_pos (show 1 < (decayX exampleEngagement).length ∧
        0 < popVar (decayX exampleEngagement) from ⟨by decide, popVar_example_pos⟩)]
  rw [if_pos popVar_example_pos]

/-- Unfolding `decay_rate_spec` on the example series. -/
lemma decay_spec_example_eq :
    decay_rate_spec exampleEngagement
      = max 0 (-(leastSquaresSlope (decayX exampleEngagement) (decayY exampleEngagement))) := by
  unfold decay_rate_spec
  rw [if_neg (show ¬exampleEngagement.isEmpty = true by decide)]
  rw [if_pos (show 3 ≤ (postPeak exampleEngagement).length by decide)]

lemma decayY_example :
    decayY exampleEngagement
      = [Real.log 4000001, Real.log 2000001, Real.log 1000001, Real.log 500001] := by
  have hpost : postPeak exampleEngagement
      = [⟨3, 4000000⟩, ⟨4, 2000000⟩, ⟨5, 1000000⟩, ⟨6, 500000⟩] := by decide
  simp only [decayY, hpost, List.map_cons, List.map_nil]
  norm_num

/-- The least-squares slope over the example's post-peak points is negative:
the log-hours decline strictly. -/
lemma ls_example_neg :
    leastSquaresSlope [1, 2, 3, 4]
      [Real.log 4000001, Real.log 2000001, Real.log 1000001, Real.log 500001] < 0 := by
  have h1 : Real.log 500001 < Real.log 4000001 := Real.log_lt_log (by norm_num) (by norm_num)
  have h2 : Real.log 1000001 < Real.log 2000001 := Real.log_lt_log (by norm_num) (by norm_num)
  unfold leastSquaresSlope listMeanR
  rw [listMeanQ_example]
  simp only [List.zipWith_cons_cons, List.zipWith_nil_right, List.map_cons, List.map_nil,
    List.sum_cons, List.sum_nil, List.length_cons, List.length_nil]
  push_cast
  apply div_neg_of_neg_of_pos
  · linarith
  · norm_num

/-- C3: on the example series the decay rate computed by the code is 4/3 of the
least-squares decay rate — `np.cov` defaults to ddof 1 while `np.var` defaults
to ddof 0 — so the code's "simple linear regression" slope is not the
least-squares slope, and the two decay rates differ. -/
theorem c3_decay_rate_ddof_mismatch :
    decay_rate_code exampleEngagement = (4 / 3) * decay_rate_spec exampleEngagement ∧
    0 < decay_rate_spec exampleEngagement ∧
    decay_rate_code exampleEngagement ≠ decay_rate_spec exampleEngagement := by
  have hcode := decay_code_example_eq
  have hspec := decay_spec_example_eq
  rw [decayX_example, decayY_example] at hcode hspec
  have hcv : sampleCov [1, 2, 3, 4]
        [Real.log 4000001, Real.log 2000001, Real.log 1000001, Real.log 500001]
        / (popVar [1, 2, 3, 4] : ℝ)
      = (4 / 3) * leastSquaresSlope [1, 2, 3, 4]
        [Real.log 4000001, Real.log 2000001, Real.log 1000001, Real.log 500001] := by
    have h := cov_div_var_eq_ls [1, 2, 3, 4]
      [Real.log 4000001, Real.log 2000001, Real.log 1000001, Real.log 500001]
      (by decide) (by rw [popVar_example]; norm_num)
    norm_num at h
    exact h
  have hls := ls_example_neg
  rw [hcode, hspec, hcv]
  have h1 : max 0 (-((4 : ℝ) / 3 * leastSquaresSlope [1, 2, 3, 4]
        [Real.log 4000001, Real.log 2000001, Real.log 1000001, Real.log 500001]))
      = -((4 : ℝ) / 3 * leastSquaresSlope [1, 2, 3, 4]
        [Real.log 4000001, Real.log 2000001, Real.log 1000001, Real.log 500001]) :=
    max_eq_right (by linarith)
  have h2 : max 0 (-(leastSquaresSlope [1, 2, 3, 4]
        [Real.log 4000001, Real.log 2000001, Real.log 1000001, Real.log 500001]))
      = -(leastSquaresSlope [1, 2, 3, 4]
        [Real.log 4000001, Real.log 2000001, Real.log 1000001, Real.log 500001]) :=
    max_eq_right (by linarith)
  rw [h1, h2]
  refine ⟨by ring, by linarith, fun hEq => ?_⟩
  have : leastSquaresSlope [1, 2, 3, 4]
      [Real.log 4000001, Real.log 2000001, Real.log 1000001, Real.log 500001] = 0 := by
    linarith
  linarith

/-! ## Windowing simulator (`windowing_simulator.py`) -/

/-- Per-title quantities the scenario loop reads from the data frames and the
upstream estimators: the theatrical estimate (`estimate_theatrical_revenue`
includes a uniform random draw, so its output enters as data), the base
streaming value and ad value from `hours_to_value_metrics`, and the quality
scores consumed by `estimate_pvod_revenue`. -/
structure TitleInputs where
  theatrical_value : ℝ
  base_streaming_value : ℝ
  ad_value : ℝ
  critic_score : ℝ
  audience_score : ℝ

def PVOD_CANNIBALIZATION_FACTOR : ℝ := 0.3
def LICENSE_CANNIBALIZATION_FACTOR : ℝ := 0.25
def PVOD_REVENUE_PCT_OF_THEATRICAL : ℝ := 0.15
def DISCOUNT_RATE : ℝ := 0.10

/-- `assumptions.estimate_pvod_revenue` (lines 240-279), with the two quality
scores passed explicitly. -/
noncomputable def estimate_pvod_revenue (theatrical_revenue : ℝ)
    (critic_score audience_score : ℝ) (streaming_window_days : ℤ) : ℝ :=
  if theatrical_revenue ≤ 0 then 0
  else
    let base_pvod := theatrical_revenue * PVOD_REVENUE_PCT_OF_THEATRICAL
    let window_factor : ℝ :=
      if streaming_window_days < 45 then 1.0 - PVOD_CANNIBALIZATION_FACTOR
      else if streaming_window_days < 75 then 1.0 - PVOD_CANNIBALIZATION_FACTOR * 0.5
      else 1.0
    let avg_score := (critic_score + audience_score) / 2
    let quality_factor := 0.7 + avg_score / 100 * 0.6
    max 0 (base_pvod * window_factor * quality_factor)

/-- `assumptions.apply_license_cannibalization` (lines 316-334). -/
noncomputable def apply_license_cannibalization (base_streaming_value : ℝ)
    (has_third_party_license : Bool) : ℝ :=
  if has_third_party_license then base_streaming_value * (1.0 - LICENSE_CANNIBALIZATION_FACTOR)
  else base_streaming_value

/-- PVOD value of a scenario (`windowing_simulator.py` lines 60-73 / 367-378). -/
noncomputable def scenario_pvod_value (inp : TitleInputs) (s : WindowingScenario) : ℝ :=
  if 0 < inp.theatrical_value ∧ 0 < s.pvod_window_days then
    estimate_pvod_revenue inp.theatrical_value inp.critic_score inp.audience_score
      (streaming_offset s)
  else 0

/-- Window-adjusted, possibly cannibalized streaming value
(`windowing_simulator.py` lines 90-116 / 394-415). -/
noncomputable def adjusted_streaming_value (inp : TitleInputs) (s : WindowingScenario) : ℝ :=
  let base := inp.base_streaming_value * streaming_multiplier (streaming_offset s)
  if 0 < s.third_party_license_start_days then apply_license_cannibalization base true
  else base

/-- Licence fee collected when a third-party licence starts
(`windowing_simulator.py` line 119 / 417). -/
noncomputable def scenario_license_value (s : WindowingScenario) : ℝ :=
  if 0 < s.third_party_license_start_days then s.third_party_license_fee else 0

/-- `cashflows.get(k, d)` on the pandas `Series` used as an int-keyed dict. -/
def CFSeries.get (s : CFSeries) (k : ℤ) (d : ℝ) : ℝ :=
  match s.find? (fun pc => pc.1 == k) with
  | some pc => pc.2
  | none => d

/-- `cashflows[k] = v`: overwrite the existing key or append a new one. -/
def CFSeries.set (s : CFSeries) (k : ℤ) (v : ℝ) : CFSeries :=
  if s.any (fun pc => pc.1 == k) then
    s.map (fun pc => if pc.1 == k then (pc.1, v) else pc)
  else s ++ [(k, v)]

/-- Python `range(a, b)` over ints: `a, a+1, …, b−1`, empty when `b ≤ a`. -/
def intRange (a b : ℤ) : List ℤ :=
  (List.range (b - a).toNat).map (fun i => a + (i : ℤ))

/-- The result row `simulate_windowing_scenarios` appends per scenario. -/
structure ScenarioRow where
  scenario_name : String
  theatrical_window_days : ℤ
  pvod_window_days : ℤ
  streaming_offset_days : ℤ
  license_start_days : ℤ
  theatrical_value : ℝ
  pvod_value : ℝ
  streaming_value : ℝ
  ad_value : ℝ
  license_value : ℝ
  total_value : ℝ
  total_npv : ℝ

/-- Loop body of `simulate_windowing_scenarios` (lines 52-171): value
components, the weekly cashflow series (theatrical weeks 0-11, PVOD
overwriting its window, streaming added over 104 decayed weeks, licence lump
sum added) and its NPV. Python `//` is floor division, hence `Int.fdiv`. -/
noncomputable def computeScenarioRow (inp : TitleInputs) (s : WindowingScenario) : ScenarioRow :=
  let theatrical_value := inp.theatrical_value
  let pvod_value := scenario_pvod_value inp s
  let adj := adjusted_streaming_value inp s
  let license_value := scenario_license_value s
  let cf1 : CFSeries :=
    if 0 < theatrical_value then
      (intRange 0 12).foldl (fun cf w => cf.set w (theatrical_value / 12)) []
    else []
  let pvod_start := Int.fdiv s.theatrical_window_days 7
  let pvod_dur := Int.fdiv s.pvod_window_days 7
  let cf2 : CFSeries :=
    if 0 < pvod_value then
      (intRange pvod_start (pvod_start + pvod_dur)).foldl
        (fun cf w => cf.set w (pvod_value / (pvod_dur : ℝ))) cf1
    else cf1
  let start := Int.fdiv (streaming_offset s) 7
  let cf3 : CFSeries :=
    (intRange start (start + 104)).foldl
      (fun cf w => cf.set w (cf.get w 0
        + (adj / 104) * Real.exp (-0.05 * ((w - start : ℤ) : ℝ) / 52))) cf2
  let license_week := Int.fdiv s.third_party_license_start_days 7
  let cf4 : CFSeries :=
    if 0 < license_value then
      cf3.set license_week (cf3.get license_week 0 + license_value)
    else cf3
  { scenario_name := s.scenario_name
    theatrical_window_days := s.theatrical_window_days
    pvod_window_days := s.pvod_window_days
    streaming_offset_days := streaming_offset s
    license_start_days := s.third_party_license_start_days
    theatrical_value := theatrical_value
    pvod_value := pvod_value
    streaming_value := adj
    ad_value := inp.ad_value
    license_value := license_value
    total_value := theatrical_value + pvod_value + adj + inp.ad_value + license_value
    total_npv := compute_npv cf4 DISCOUNT_RATE 52 }

/-- `simulate_windowing_scenarios` (lines 15-173): the scenario loop; scenarios
for a different title are skipped by `continue`. -/
noncomputable def simulate_windowing_scenarios (title_id : String) (inp : TitleInputs) :
    List WindowingScenario → List ScenarioRow
  | [] => []
  | s :: rest =>
    if s.title_id = title_id then
      computeScenarioRow inp s :: simulate_windowing_scenarios title_id inp rest
    else simulate_windowing_scenarios title_id inp rest

/-- One row of the timeline frame built by `compute_cashflow_timeline`. -/
structure CashflowPeriod where
  period : ℕ
  theatrical_cf : ℝ
  pvod_cf : ℝ
  streaming_cf : ℝ
  ad_cf : ℝ
  license_cf : ℝ
  total_cf : ℝ

/-- Loop body of `compute_cashflow_timeline` (lines 423-466). -/
noncomputable def cashflowAt (inp : TitleInputs) (s : WindowingScenario) (period : ℕ) :
    CashflowPeriod :=
  let theatrical_value := inp.theatrical_value
  let pvod_value := scenario_pvod_value inp s
  let adj := adjusted_streaming_value inp s
  let license_value := scenario_license_value s
  let cf_theatrical := if 0 < theatrical_value ∧ period < 12 then theatrical_value / 12 else 0
  let pvod_start := Int.fdiv s.theatrical_window_days 7
  let pvod_dur := Int.fdiv s.pvod_window_days 7
  let cf_pvod :=
    if 0 < pvod_value ∧ pvod_start ≤ (period : ℤ) ∧ (period : ℤ) < pvod_start + pvod_dur then
      pvod_value / (pvod_dur : ℝ)
    else 0
  let start := Int.fdiv (streaming_offset s) 7
  let decay := Real.exp (-0.05 * (((period : ℤ) - start : ℤ) : ℝ) / 52)
  let cf_streaming :=
    if start ≤ (period : ℤ) ∧ (period : ℤ) < start + 104 then (adj / 104) * decay else 0
  let cf_ad :=
    if start ≤ (period : ℤ) ∧ (period : ℤ) < start + 104 then (inp.ad_value / 104) * decay
    else 0
  let license_week := Int.fdiv s.third_party_license_start_days 7
  let cf_license := if 0 < license_value ∧ (period : ℤ) = license_week then license_value else 0
  ⟨period, cf_theatrical, cf_pvod, cf_streaming, cf_ad, cf_license,
    cf_theatrical + cf_pvod + cf_streaming + cf_ad + cf_license⟩

/-- `compute_cashflow_timeline` (lines 328-477): `max_periods = 260` rows. -/
noncomputable def compute_cashflow_timeline (inp : TitleInputs) (s : WindowingScenario) :
    List CashflowPeriod :=
  (List.range 260).map (cashflowAt inp s)

/-- The `cumulative_npv` column appended at lines 470-475. -/
noncomputable def timeline_cumulative_npv (inp : TitleInputs) (s : WindowingScenario)
    (periods_per_year : ℝ) (n : ℕ) : ℝ :=
  ∑ p in Finset.range (n + 1),
    (cashflowAt inp s p).total_cf
      * (1 / (1 + ((1 + DISCOUNT_RATE) ^ ((1 : ℝ) / periods_per_year) - 1)) ^ (p : ℤ))

/-- Concrete inputs: zero values, default quality scores. -/
noncomputable def zeroInputs : TitleInputs := ⟨0, 0, 0, 70, 70⟩

/-- Concrete inputs: unit base streaming value, nothing else. -/
noncomputable def unitStreamingInputs : TitleInputs := ⟨0, 1, 0, 70, 70⟩

/-- A scenario belonging to a different title. -/
noncomputable def otherTitleScenario : WindowingScenario :=
  ⟨"Exclusive Streaming", "T2", 0, 0, 0, 0, 0, 0⟩

/-- A malformed scenario: negative theatrical and PVOD windows and a streaming
offset (2000 days) far past the simulated 260-week horizon. -/
noncomputable def malformedScenario : WindowingScenario :=
  ⟨"Malformed", "T1", -10, -30, 2000, 2000, 0, 0⟩

/-- The source's day-and-date scenario: everything at offset zero. -/
noncomputable def dayAndDateScenario : WindowingScenario :=
  ⟨"Day-and-Date Streaming", "T1", 0, 0, 0, 0, 0, 0⟩

/-- C10: scenarios whose title id differs from the requested title are silently
skipped: the result is the computed row of each matching scenario in input
order, and a list of only mismatched scenarios yields an empty result rather
than an error. -/
theorem c10_mismatched_scenarios_skipped :
    (∀ (title_id : String) (inp : TitleInputs) (scenarios : List WindowingScenario),
      simulate_windowing_scenarios title_id inp scenarios
        = (scenarios.filter (fun s => s.title_id == title_id)).map (computeScenarioRow inp)) ∧
    simulate_windowing_scenarios "T1" zeroInputs [otherTitleScenario] = [] := by
  have hgen : ∀ (title_id : String) (inp : TitleInputs) (scenarios : List WindowingScenario),
      simulate_windowing_scenarios title_id inp scenarios
        = (scenarios.filter (fun s => s.title_id == title_id)).map (computeScenarioRow inp) := by
    intro tid inp scenarios
    induction scenarios with
    | nil => rfl
    | cons s rest ih =>
      by_cases h : s.title_id = tid
      · simp [simulate_windowing_scenarios, if_pos h, List.filter_cons, h, ih]
      · have hne : (s.title_id == tid) = false := beq_eq_false_iff_ne.2 h
        simp only [simulate_windowing_scenarios, if_neg h, List.filter_cons, hne,
          Bool.false_eq_true, if_false, ih]
  refine ⟨hgen, ?_⟩
  rw [hgen]
  have : (otherTitleScenario.title_id == "T1") = false := by
    simp [otherTitleScenario]
  simp [this]

/-- C2 counterexample: the malformed scenario (negative theatrical and PVOD
windows, streaming offset past the horizon) is not rejected: the simulator
returns its full result row and the timeline builder its full 260 periods. -/
theorem c2_counterexample_no_validation :
    simulate_windowing_scenarios "T1" zeroInputs [malformedScenario]
      = [computeScenarioRow zeroInputs malformedScenario] ∧
    (compute_cashflow_timeline zeroInputs malformedScenario).length = 260 := by
  constructor
  · simp [simulate_windowing_scenarios, malformedScenario]
  · simp [compute_cashflow_timeline]

/-- C2 (amended): the simulator performs no validation at all: any scenario
whose title id matches is processed, malformed or not, contributing exactly its
computed row; a negative PVOD window silently yields a zero PVOD component; and
the timeline is always built with its 260 periods. -/
theorem c2_no_validation (tid : String) (inp : TitleInputs) (s : WindowingScenario)
    (h : s.title_id = tid) :
    simulate_windowing_scenarios tid inp [s] = [computeScenarioRow inp s] ∧
    (s.pvod_window_days < 0 → scenario_pvod_value inp s = 0) ∧
    (compute_cashflow_timeline inp s).length = 260 := by
  refine ⟨?_, ?_, ?_⟩
  · simp [simulate_windowing_scenarios, h]
  · intro hneg
    simp only [scenario_pvod_value]
    rw [if_neg]
    rintro ⟨-, h2⟩
    omega
  · simp [compute_cashflow_timeline]

/-- C2 witness: the amended statement instantiated on the malformed scenario. -/
theorem c2_no_validation_witness :
    simulate_windowing_scenarios "T1" zeroInputs [malformedScenario]
      = [computeScenarioRow zeroInputs malformedScenario] ∧
    scenario_pvod_value zeroInputs malformedScenario = 0 ∧
    (compute_cashflow_timeline zeroInputs malformedScenario).length = 260 :=
  ⟨(c2_no_validation "T1" zeroInputs malformedScenario rfl).1,
   (c2_no_validation "T1" zeroInputs malformedScenario rfl).2.1 (by norm_num [malformedScenario]),
   (c2_no_validation "T1" zeroInputs malformedScenario rfl).2.2⟩

/-- Sum of the first 104 weekly decay weights `exp(−0.05·w/52)`. -/
noncomputable def decayWeightSum : ℝ :=
  ∑ w ∈ Finset.range 104, Real.exp (-0.05 * (w : ℝ) / 52)

/-- The decay weights do not sum to 104: every weight beyond week 0 is strictly
below 1, so no normalization happens. -/
lemma decayWeightSum_lt : decayWeightSum < 104 := by
  have h := Finset.sum_lt_sum
    (f := fun w : ℕ => Real.exp (-0.05 * (w : ℝ) / 52))
    (g := fun _ : ℕ => (1 : ℝ))
    (s := Finset.range 104)
    (by
      intro w hw
      rw [Real.exp_le_one_iff]
      have : (0 : ℝ) ≤ (w : ℝ) := Nat.cast_nonneg w
      nlinarith)
    ⟨1, Finset.mem_range.2 (by norm_num), by
      rw [Real.exp_lt_one_iff]
      norm_num⟩
  have h2 : (∑ _w ∈ Finset.range 104, (1 : ℝ)) = 104 := by simp
  rw [decayWeightSum]
  exact h.trans_eq h2

lemma sum_map_range_real (n : ℕ) (f : ℕ → ℝ) :
    ((List.range n).map f).sum = ∑ p ∈ Finset.range n, f p := by
  induction n with
  | zero => simp
  | succ m ih =>
    rw [List.range_succ, List.map_append, List.sum_append, Finset.sum_range_succ, ih]
    simp

/-- Undiscounted totals of the timeline's streaming and ad columns: each is the
spread value times `decayWeightSum / 104`, provided the 104-week streaming
window lies inside the 260-period horizon. -/
lemma timeline_streaming_ad_sums (inp : TitleInputs) (s : WindowingScenario)
    (h0 : 0 ≤ Int.fdiv (streaming_offset s) 7)
    (h260 : Int.fdiv (streaming_offset s) 7 + 104 ≤ 260) :
    (∑ p ∈ Finset.range 260, (cashflowAt inp s p).streaming_cf)
      = (adjusted_streaming_value inp s / 104) * decayWeightSum ∧
    (∑ p ∈ Finset.range 260, (cashflowAt inp s p).ad_cf)
      = (inp.ad_value / 104) * decayWeightSum := by
  set st : ℤ := Int.fdiv (streaming_offset s) 7 with hst
  set n₀ : ℕ := st.toNat with hn₀
  have hcast : (n₀ : ℤ) = st := Int.toNat_of_nonneg h0
  have hn260 : n₀ + 104 ≤ 260 := by omega
  have main : ∀ A : ℝ,
      (∑ p ∈ Finset.range 260,
        if st ≤ (p : ℤ) ∧ (p : ℤ) < st + 104 then
          (A / 104) * Real.exp (-0.05 * (((p : ℤ) - st : ℤ) : ℝ) / 52) else 0)
        = (A / 104) * decayWeightSum := by
    intro A
    rw [← Finset.sum_filter]
    have hfil : (Finset.range 260).filter (fun (p : ℕ) => st ≤ (p : ℤ) ∧ (p : ℤ) < st + 104)
        = Finset.Ico n₀ (n₀ + 104) := by
      ext a
      simp only [Finset.mem_filter, Finset.mem_range, Finset.mem_Ico]
      omega
    rw [hfil, Finset.sum_Ico_eq_sum_range]
    have h104 : n₀ + 104 - n₀ = 104 := by omega
    rw [h104]
    rw [decayWeightSum, Finset.mul_sum]
    apply Finset.sum_congr rfl
    intro w hw
    have harg : ((((n₀ + w : ℕ) : ℤ) - st : ℤ) : ℝ) = (w : ℝ) := by
      push_cast [← hcast]
      ring
    rw [harg]
  constructor
  · have hs : ∀ p ∈ Finset.range 260, (cashflowAt inp s p).streaming_cf
        = if st ≤ (p : ℤ) ∧ (p : ℤ) < st + 104 then
            (adjusted_streaming_value inp s / 104)
              * Real.exp (-0.05 * (((p : ℤ) - st : ℤ) : ℝ) / 52) else 0 := by
      intro p _
      simp only [cashflowAt, ← hst]
    rw [Finset.sum_congr rfl hs, main]
  · have hs : ∀ p ∈ Finset.range 260, (cashflowAt inp s p).ad_cf
        = if st ≤ (p : ℤ) ∧ (p : ℤ) < st + 104 then
            (inp.ad_value / 104)
              * Real.exp (-0.05 * (((p : ℤ) - st : ℤ) : ℝ) / 52) else 0 := by
      intro p _
      simp only [cashflowAt, ← hst]
    rw [Finset.sum_congr rfl hs, main]

/-- C1 counterexample: for the day-and-date scenario with unit base streaming
value the adjusted streaming value is 1, yet the undiscounted sum of the
timeline's streaming cash column is strictly below 1 — the per-week amounts are
not normalized to make the totals match. -/
theorem c1_counterexample_not_normalized :
    adjusted_streaming_value unitStreamingInputs dayAndDateScenario = 1 ∧
    ((compute_cashflow_timeline unitStreamingInputs dayAndDateScenario).map
        (fun c => c.streaming_cf)).sum
      ≠ adjusted_streaming_value unitStreamingInputs dayAndDateScenario := by
  have hadj : adjusted_streaming_value unitStreamingInputs dayAndDateScenario = 1 := by
    simp only [adjusted_streaming_value, unitStreamingInputs, dayAndDateScenario,
      streaming_offset, streaming_multiplier]
    norm_num
  have hsum := (timeline_streaming_ad_sums unitStreamingInputs dayAndDateScenario
    (by simp [streaming_offset, dayAndDateScenario]) (by simp [streaming_offset, dayAndDateScenario])).1
  have hbridge : ((compute_cashflow_timeline unitStreamingInputs dayAndDateScenario).map
      (fun c => c.streaming_cf)).sum
      = ∑ p ∈ Finset.range 260, (cashflowAt unitStreamingInputs dayAndDateScenario p).streaming_cf := by
    rw [compute_cashflow_timeline, List.map_map, sum_map_range_real]
    rfl
  refine ⟨hadj, ?_⟩
  rw [hbridge, hsum, hadj]
  have := decayWeightSum_lt
  intro hEq
  nlinarith

/-- C1 (amended): streaming (and ad) cash is spread over the 104 weeks from
`streamingOffset/7` with per-week amount `(value/104)·exp(−0.05·w/52)`; the
undiscounted column totals equal `value · decayWeightSum/104`, which is
strictly below the respective value whenever it is positive — the amounts are
not normalized. -/
theorem c1_streaming_cash_not_normalized (inp : TitleInputs) (s : WindowingScenario)
    (h0 : 0 ≤ Int.fdiv (streaming_offset s) 7)
    (h260 : Int.fdiv (streaming_offset s) 7 + 104 ≤ 260) :
    ((compute_cashflow_timeline inp s).map (fun c => c.streaming_cf)).sum
      = (adjusted_streaming_value inp s / 104) * decayWeightSum ∧
    ((compute_cashflow_timeline inp s).map (fun c => c.ad_cf)).sum
      = (inp.ad_value / 104) * decayWeightSum ∧
    (0 < adjusted_streaming_value inp s →
      ((compute_cashflow_timeline inp s).map (fun c => c.streaming_cf)).sum
        < adjusted_streaming_value inp s) ∧
    (0 < inp.ad_value →
      ((compute_cashflow_timeline inp s).map (fun c => c.ad_cf)).sum < inp.ad_value) := by
  obtain ⟨h1, h2⟩ := timeline_streaming_ad_sums inp s h0 h260
  have hbs : ((compute_cashflow_timeline inp s).map (fun c => c.streaming_cf)).sum
      = ∑ p ∈ Finset.range 260, (cashflowAt inp s p).streaming_cf := by
    rw [compute_cashflow_timeline, List.map_map, sum_map_range_real]
    rfl
  have hba : ((compute_cashflow_timeline inp s).map (fun c => c.ad_cf)).sum
      = ∑ p ∈ Finset.range 260, (cashflowAt inp s p).ad_cf := by
    rw [compute_cashflow_timeline, List.map_map, sum_map_range_real]
    rfl
  have hlt := decayWeightSum_lt
  refine ⟨by rw [hbs, h1], by rw [hba, h2], ?_, ?_⟩
  · intro hpos
    rw [hbs, h1]
    nlinarith
  · intro hpos
    rw [hba, h2]
    nlinarith

/-- C1 witness: the amended statement instantiated on the day-and-date scenario
with unit base streaming value. -/
theorem c1_streaming_cash_not_normalized_witness :
    ((compute_cashflow_timeline unitStreamingInputs dayAndDateScenario).map
        (fun c => c.streaming_cf)).sum
      < adjusted_streaming_value unitStreamingInputs dayAndDateScenario := by
  refine (c1_streaming_cash_not_normalized unitStreamingInputs dayAndDateScenario
    (by simp [streaming_offset, dayAndDateScenario])
    (by simp [streaming_offset, dayAndDateScenario])).2.2.1 ?_
  simp only [adjusted_streaming_value, unitStreamingInputs, dayAndDateScenario,
    streaming_offset, streaming_multiplier]
  norm_num

/-! ## Greenlight forecast (`greenlight_forecast.py`) -/

/-- `data_models.NewTitleConcept`. -/
structure NewTitleConcept where
  concept_name : String
  brand : String
  genre : String
  content_type : String
  season_number : Option ℤ
  episode_count : Option ℤ
  production_budget_estimate : ℝ
  marketing_spend_estimate : ℝ
  ip_familiarity : String
  star_power_score : ℤ
  buzz_potential_score : ℤ

/-- One merged titles×scorecards row, as consumed by the comps scoring. -/
structure CompRow where
  title_id : String
  title_name : String
  brand : String
  genre : String
  content_type : String
  production_budget_tier : String
  total_hours_viewed : ℝ
  total_value : ℝ
  roi : ℝ
  classification : String

/-- Budget tier of a concept (lines 64-71): below 20 → Low, below 80 → Medium,
else High (budgets are in millions here). -/
noncomputable def concept_tier (concept : NewTitleConcept) : String :=
  if concept.production_budget_estimate < 20 then "Low"
  else if concept.production_budget_estimate < 80 then "Medium"
  else "High"

/-- `["Low", "Medium", "High"].index(t)`; tiers in the data are always one of
the three, so no other value reaches the subtraction. -/
def tierIndex (t : String) : ℤ :=
  if t = "Low" then 0 else if t = "Medium" then 1 else 2

/-- Similarity score of `find_comparable_titles` (lines 49-84): integer weights
for brand, genre, content type, budget-tier proximity and franchise IP. -/
noncomputable def similarity_score (concept : NewTitleConcept) (row : CompRow) : ℤ :=
  (if row.brand = concept.brand then 5 else 0)
  + (if row.genre = concept.genre then 3 else 0)
  + (if row.content_type = concept.content_type then 4 else 0)
  + (if row.production_budget_tier = concept_tier concept then 3
     else if (tierIndex row.production_budget_tier - tierIndex (concept_tier concept)).natAbs = 1
       then 1 else 0)
  + (if (concept.ip_familiarity = "Sequel" ∨ concept.ip_familiarity = "Spin-off" ∨
        concept.ip_familiarity = "Franchise Core") ∧
        (row.brand = "Marvel" ∨ row.brand = "Star Wars" ∨ row.brand = "Pixar") then 2 else 0)

/-- `df.nlargest(n, col)`: stable descending sort on the key, first `n` rows. -/
noncomputable def nlargestBy (n : ℕ) (key : CompRow → ℤ) (rows : List CompRow) : List CompRow :=
  (rows.insertionSort (fun a b => key b ≤ key a)).take n

/-- `find_comparable_titles` (lines 16-91), with the titles×scorecards inner
merge passed in as the candidate rows. -/
noncomputable def find_comparable_titles (concept : NewTitleConcept)
    (rows : List CompRow) (top_n : ℕ) : List CompRow :=
  nlargestBy top_n (similarity_score concept) rows

/-- Mean/std/min/max block of `compute_performance_distribution`. -/
structure MetricStats where
  mean : ℝ
  std : ℝ
  min : ℝ
  max : ℝ

/-- The three metric blocks of `compute_performance_distribution`. -/
structure Distributions where
  total_hours_viewed : MetricStats
  total_value : MetricStats
  roi : MetricStats

/-- pandas `.std()`: sample standard deviation (ddof = 1). -/
noncomputable def listStd (xs : List ℝ) : ℝ :=
  Real.sqrt ((xs.map (fun x => (x - listMeanR xs) ^ 2)).sum / ((xs.length : ℝ) - 1))

/-- pandas `.min()` of a series (0 on an empty list, never hit here). -/
noncomputable def listMinR : List ℝ → ℝ
  | [] => 0
  | x :: t => t.foldl min x

/-- pandas `.max()` of a series (0 on an empty list, never hit here). -/
noncomputable def listMaxR : List ℝ → ℝ
  | [] => 0
  | x :: t => t.foldl max x

noncomputable def metricStatsOf (xs : List ℝ) : MetricStats :=
  ⟨listMeanR xs, listStd xs, listMinR xs, listMaxR xs⟩

/-- `compute_performance_distribution` (lines 94-125): the metric columns are
always present in the merged frame, so the populated branch applies. -/
noncomputable def compute_performance_distribution (comps : List CompRow) : Distributions :=
  ⟨metricStatsOf (comps.map (·.total_hours_viewed)),
   metricStatsOf (comps.map (·.total_value)),
   metricStatsOf (comps.map (·.roi))⟩

/-- One scenario dict of `generate_scenarios`. -/
structure ScenarioVals where
  total_hours_viewed : ℝ
  total_value : ℝ
  total_cost : ℝ
  roi : ℝ

/-- The base/bear/bull triple of `generate_scenarios`. -/
structure Scenarios where
  base : ScenarioVals
  bear : ScenarioVals
  bull : ScenarioVals

/-- Star-power/buzz multiplier (lines 150-152). -/
noncomputable def concept_multiplier (concept : NewTitleConcept) : ℝ :=
  let star_factor := 0.8 + ((concept.star_power_score : ℝ) / 5.0) * 0.4
  let buzz_factor := 0.8 + ((concept.buzz_potential_score : ℝ) / 100.0) * 0.4
  (star_factor + buzz_factor) / 2

/-- `generate_scenarios` (lines 128-204). The bull branch caps
`(mean+std)·1.3` at `max·1.2`, then multiplies by `conceptMultiplier·1.3`. -/
noncomputable def generate_scenarios (concept : NewTitleConcept)
    (dists : Distributions) : Scenarios :=
  let cm := concept_multiplier concept
  let total_cost := concept.production_budget_estimate * 1000000
    + concept.marketing_spend_estimate * 1000000
  let base_hours := dists.total_hours_viewed.mean * cm
  let base_value := dists.total_value.mean * cm
  let base_roi := if 0 < total_cost then (base_value - total_cost) / total_cost else 0
  let bear_hours :=
    max (dists.total_hours_viewed.mean - dists.total_hours_viewed.std)
      dists.total_hours_viewed.min * (cm * 0.7)
  let bear_value :=
    max (dists.total_value.mean - dists.total_value.std) dists.total_value.min * (cm * 0.7)
  let bear_roi := if 0 < total_cost then (bear_value - total_cost) / total_cost else 0
  let bull_hours :=
    min ((dists.total_hours_viewed.mean + dists.total_hours_viewed.std) * 1.3)
      (dists.total_hours_viewed.max * 1.2) * (cm * 1.3)
  let bull_value :=
    min ((dists.total_value.mean + dists.total_value.std) * 1.3)
      (dists.total_value.max * 1.2) * (cm * 1.3)
  let bull_roi := if 0 < total_cost then (bull_value - total_cost) / total_cost else 0
  ⟨⟨base_hours, base_value, total_cost, base_roi⟩,
   ⟨bear_hours, bear_value, total_cost, bear_roi⟩,
   ⟨bull_hours, bull_value, total_cost, bull_roi⟩⟩

/-- `generate_recommendation` (lines 276-366): the narrative string, with the
f-string float formatting abstracted as `fmt`. The `if not base` guard never
fires on this call path (the scenarios triple always carries a base dict). -/
noncomputable def generate_recommendation (fmt : ℝ → String) (concept : NewTitleConcept)
    (scenarios : Scenarios) (comps : List CompRow) : String :=
  let base := scenarios.base
  let bear := scenarios.bear
  let bull := scenarios.bull
  let part1 := "**Greenlight Forecast for '" ++ concept.concept_name ++ "'**\n\n"
  let part2 := "Based on analysis of **" ++ toString comps.length
    ++ " comparable titles**, including "
    ++ String.intercalate ", " ((comps.map (·.title_name)).take 3) ++ ".\n\n"
  let part3 := "**Scenario Summary**:\n- **Bear Case**: " ++ fmt (bear.roi * 100)
    ++ "% ROI | $" ++ fmt (bear.total_value / 1000000) ++ "M value\n- **Base Case**: "
    ++ fmt (base.roi * 100) ++ "% ROI | $" ++ fmt (base.total_value / 1000000)
    ++ "M value\n- **Bull Case**: " ++ fmt (bull.roi * 100) ++ "% ROI | $"
    ++ fmt (bull.total_value / 1000000) ++ "M value\n\n"
  let rec_pair : String × String :=
    if 1.0 < base.roi ∧ 0.3 < bear.roi then
      ("**STRONG GREENLIGHT**", "Base case shows excellent returns with limited downside risk.")
    else if 0.5 < base.roi ∧ 0 < bear.roi then
      ("**GREENLIGHT**", "Solid projected returns with manageable downside.")
    else if 0.2 < base.roi then
      ("**CONDITIONAL GREENLIGHT**",
        "Moderate returns projected. Consider budget optimization or talent upgrades.")
    else if 0 < base.roi then
      ("**MARGINAL**",
        "Returns are positive but limited. Recommend further development or budget reduction.")
    else
      ("**PASS**", "Projected returns do not justify investment at current budget level.")
  let part4 := "**Recommendation**: " ++ rec_pair.1 ++ "\n\n*" ++ rec_pair.2 ++ "*\n\n"
  let part5 := "**Key Factors**:\n"
    ++ (if concept.ip_familiarity = "Sequel" ∨ concept.ip_familiarity = "Franchise Core" then
          "- ✓ Strong IP foundation reduces risk\n"
        else if concept.ip_familiarity = "New IP" then
          "- ⚠ New IP carries higher execution risk\n"
        else "")
    ++ (if 4 ≤ concept.star_power_score then "- ✓ Strong talent attachment\n"
        else if concept.star_power_score ≤ 2 then
          "- ⚠ Limited star power may impact marketing\n"
        else "")
    ++ (if 70 ≤ concept.buzz_potential_score then "- ✓ High buzz potential\n"
        else if concept.buzz_potential_score ≤ 40 then
          "- ⚠ Lower buzz potential may require marketing investment\n"
        else "")
    ++ (let avg := listMeanR (comps.map (·.roi))
        if 0.8 < avg then
          "- ✓ Comps show strong average ROI of " ++ fmt (avg * 100) ++ "%\n"
        else if avg < 0.3 then
          "- ⚠ Comps show modest average ROI of " ++ fmt (avg * 100) ++ "%\n"
        else "")
  part1 ++ part2 ++ part3 ++ part4 ++ part5

/-- The dict returned by `forecast_new_title`; `scenarios` is the insertion-
ordered dict, empty in the no-comparables branch. -/
structure ForecastResult where
  concept_name : String
  comps : List CompRow
  scenarios : List (String × ScenarioVals)
  recommendation : String

/-- `forecast_new_title` (lines 207-273), with the scorecard computation and
titles merge upstream of the comps search represented by the candidate rows. -/
noncomputable def forecast_new_title (fmt : ℝ → String) (concept : NewTitleConcept)
    (rows : List CompRow) : ForecastResult :=
  let comps := find_comparable_titles concept rows 5
  if comps.isEmpty then
    { concept_name := concept.concept_name
      comps := []
      scenarios := []
      recommendation := "Unable to generate forecast: no comparable titles found." }
  else
    let dists := compute_performance_distribution comps
    let scenarios := generate_scenarios concept dists
    { concept_name := concept.concept_name
      comps := comps
      scenarios := [("base", scenarios.base), ("bear", scenarios.bear), ("bull", scenarios.bull)]
      recommendation := generate_recommendation fmt concept scenarios comps }

/-- A concept whose multiplier is exactly 1 (star 5, buzz 0) with zero cost. -/
noncomputable def neutralConcept : NewTitleConcept :=
  ⟨"Neutral", "None", "Drama", "Film", none, none, 0, 0, "New IP", 5, 0⟩

/-- Comparable distributions with mean 100, std 0, min = max = 100 for hours
and value, zero ROI stats. -/
noncomputable def flatDistributions : Distributions :=
  ⟨⟨100, 0, 100, 100⟩, ⟨100, 0, 100, 100⟩, ⟨0, 0, 0, 0⟩⟩

/-- C6 counterexample: with mean+std = 100 and max·1.2 = 120 under a unit
concept multiplier, the code produces a bull value of 156 = 120·1.3 — the ×1.3
was applied once before the cap (130 capped to 120) and again after — while the
claim's single-amplification formula `min(mean+std, max·1.2)·1.3·cm` gives 130. -/
theorem c6_counterexample_double_amplification :
    (generate_scenarios neutralConcept flatDistributions).bull.total_value = 156 ∧
    min (flatDistributions.total_value.mean + flatDistributions.total_value.std)
        (flatDistributions.total_value.max * 1.2) * 1.3 * concept_multiplier neutralConcept
      = 130 := by
  have hcm : concept_multiplier neutralConcept = 1 := by
    simp only [concept_multiplier, neutralConcept]
    norm_num
  constructor
  · simp only [generate_scenarios, flatDistributions, hcm]
    norm_num [min_def]
  · simp only [flatDistributions, hcm]
    norm_num [min_def]

/-- C6 (amended): the bull ×1.3 amplification is applied twice — once to
mean+std before the cap and once after — so the bull value is
`min((mean+std)·1.3, max·1.2) · conceptMultiplier · 1.3`: an effective ×1.69 on
mean+std when the cap does not bind, and `max·1.2·1.3·cm` when it does; the
bull hours follow the same doubly-amplified shape. -/
theorem c6_bull_double_amplification (concept : NewTitleConcept) (d : Distributions) :
    ((d.total_value.mean + d.total_value.std) * 1.3 ≤ d.total_value.max * 1.2 →
      (generate_scenarios concept d).bull.total_value
        = (d.total_value.mean + d.total_value.std) * 1.69 * concept_multiplier concept) ∧
    (d.total_value.max * 1.2 ≤ (d.total_value.mean + d.total_value.std) * 1.3 →
      (generate_scenarios concept d).bull.total_value
        = d.total_value.max * 1.2 * 1.3 * concept_multiplier concept) ∧
    (generate_scenarios concept d).bull.total_hours_viewed
      = min ((d.total_hours_viewed.mean + d.total_hours_viewed.std) * 1.3)
          (d.total_hours_viewed.max * 1.2) * (concept_multiplier concept * 1.3) := by
  refine ⟨fun h => ?_, fun h => ?_, ?_⟩
  · simp only [generate_scenarios]
    rw [min_eq_left h]
    ring
  · simp only [generate_scenarios]
    rw [min_eq_right h]
    ring
  · simp only [generate_scenarios]

/-- C6 witness: the amended cap-binding case on the flat distributions. -/
theorem c6_bull_double_amplification_witness :
    (generate_scenarios neutralConcept flatDistributions).bull.total_value
      = flatDistributions.total_value.max * 1.2 * 1.3 * concept_multiplier neutralConcept :=
  (c6_bull_double_amplification neutralConcept flatDistributions).2.1
    (by simp only [flatDistributions]; norm_num)

/-- A sample concept and an all-zero comparable row for the C8 witness. -/
noncomputable def sampleConcept : NewTitleConcept :=
  ⟨"New Film", "Marvel", "Action", "Film", none, none, 100, 50, "New IP", 3, 50⟩

noncomputable def zeroCompRow : CompRow :=
  ⟨"T1", "Title One", "Marvel", "Action", "Film", "High", 0, 0, 0, "Marginal"⟩

/-- C8: with no comparables (an empty candidate set, e.g. from an empty
catalog) the forecast returns the explicit no-comparables result — empty comps,
empty scenarios dict and a fixed distinct recommendation — while every forecast
from a non-empty candidate set carries the scenario keys base, bear and bull
even when all scenario values are zero, so the two outcomes are always
distinguishable. -/
theorem c8_empty_comps_explicit (fmt : ℝ → String) (concept : NewTitleConcept) :
    (forecast_new_title fmt concept []).comps = [] ∧
    (forecast_new_title fmt concept []).scenarios = [] ∧
    (forecast_new_title fmt concept []).recommendation
      = "Unable to generate forecast: no comparable titles found." ∧
    (∀ rows : List CompRow, rows ≠ [] →
      ((forecast_new_title fmt concept rows).scenarios.map Prod.fst)
        = ["base", "bear", "bull"]) := by
  have hempty : find_comparable_titles concept [] 5 = [] := by
    simp [find_comparable_titles, nlargestBy]
  refine ⟨?_, ?_, ?_, ?_⟩
  · simp [forecast_new_title, hempty]
  · simp [forecast_new_title, hempty]
  · simp [forecast_new_title, hempty]
  · intro rows hrows
    have hne : (find_comparable_titles concept rows 5).isEmpty = false := by
      simp only [find_comparable_titles, nlargestBy]
      cases hsort : List.insertionSort (fun a b =>
          similarity_score concept b ≤ similarity_score concept a) rows with
      | nil =>
        have hlen := (List.perm_insertionSort (fun a b =>
          similarity_score concept b ≤ similarity_score concept a) rows).length_eq
        rw [hsort] at hlen
        cases rows with
        | nil => exact absurd rfl hrows
        | cons a t => simp at hlen
      | cons a t => rfl
    simp [forecast_new_title, hne]

/-- C8 witness: a single all-zero comparable row still yields the three
scenario keys, distinguishable from the no-comparables result. -/
theorem c8_empty_comps_explicit_witness :
    ((forecast_new_title (fun _ => "") sampleConcept [zeroCompRow]).scenarios.map Prod.fst)
      = ["base", "bear", "bull"] :=
  (c8_empty_comps_explicit (fun _ => "") sampleConcept).2.2.2 [zeroCompRow] (by simp)

end MagicSlate
